import Mathlib

/-!
Shallow embedding of the inverter register-protocol adapters
(anern.py: class AnernProtocol; deye_protocol.py: class DeyeModbusProtocol).

Modelling conventions:
* Register words are Nat (u16 payloads as delivered by the transport).
* Python numbers (int/float produced by factor scaling) are modelled as ℚ,
  so scaling arithmetic is exact; Python int(x) is truncation toward zero.
* The pymodbus client is opaque: its observable behaviour (connect result,
  per-attempt read/write outcomes) is an oracle, the Transport structure.
  Each constructed client is identified by a fresh Nat id so that client
  replacement is observable.
* Caught Python exceptions (the except branches) are explicit outcome
  constructors; a caught exception inside the decode try-block is Option.none.
-/

namespace Invertor

/-- Python value stored under the "value" key of a result dict: either a
number (int/float, modelled exactly as ℚ) or a string (time_now). -/
inductive PyValue where
  | num (q : ℚ)
  | str (s : String)
deriving DecidableEq, Repr

/-- Result dict of read_parameter: keys "value" and "unit". -/
structure ParamValue where
  value : PyValue
  unit : String
deriving DecidableEq, Repr

/-- One REGISTER_MAP entry: keys "address", "size", "factor", "unit". -/
structure RegisterInfo where
  address : Nat
  size : Nat
  factor : ℚ
  unit : String
deriving DecidableEq, Repr

/-- Membership test plus access of a Python dict keyed by strings, as used on
REGISTER_MAP (parameter_name in map, then map[parameter_name]). -/
def lookupParam (name : String) : List (String × RegisterInfo) → Option RegisterInfo
  | [] => none
  | (k, v) :: rest => if k = name then some v else lookupParam name rest

/-- REGISTER_MAP of AnernProtocol (anern.py lines 31-60). -/
def AnernRegisterMap : List (String × RegisterInfo) := [
  ("status", ⟨0x0000, 1, 1, ""⟩),
  ("operation_mode", ⟨0x0001, 1, 1, ""⟩),
  ("grid_voltage", ⟨0x0100, 1, 0.1, "V"⟩),
  ("grid_frequency", ⟨0x0101, 1, 0.01, "Hz"⟩),
  ("output_voltage", ⟨0x0102, 1, 0.1, "V"⟩),
  ("output_frequency", ⟨0x0103, 1, 0.01, "Hz"⟩),
  ("output_power", ⟨0x0104, 1, 1, "W"⟩),
  ("output_current", ⟨0x0105, 1, 0.1, "A"⟩),
  ("load_percent", ⟨0x0106, 1, 1, "%"⟩),
  ("bus_voltage", ⟨0x0110, 1, 0.1, "V"⟩),
  ("pv_voltage", ⟨0x0111, 1, 0.1, "V"⟩),
  ("pv_charging_current", ⟨0x0112, 1, 0.1, "A"⟩),
  ("pv_power", ⟨0x0113, 1, 1, "W"⟩),
  ("battery_voltage", ⟨0x0114, 1, 0.1, "V"⟩),
  ("battery_current", ⟨0x0115, 1, 0.1, "A"⟩),
  ("battery_temperature", ⟨0x0116, 1, 1, "°C"⟩),
  ("inverter_temperature", ⟨0x0117, 1, 1, "°C"⟩),
  ("ambient_temperature", ⟨0x0118, 1, 1, "°C"⟩),
  ("battery_soc", ⟨0x0120, 1, 1, "%"⟩),
  ("error_flags_1", ⟨0x0200, 1, 1, ""⟩),
  ("error_flags_2", ⟨0x0201, 1, 1, ""⟩),
  ("max_charging_current", ⟨0x0300, 1, 1, "A"⟩),
  ("max_ac_charging_current", ⟨0x0301, 1, 1, "A"⟩),
  ("max_pv_charging_current", ⟨0x0302, 1, 1, "A"⟩),
  ("charge_source_priority", ⟨0x0303, 1, 1, ""⟩),
  ("output_source_priority", ⟨0x0304, 1, 1, ""⟩),
  ("battery_cutoff_voltage", ⟨0x0305, 1, 0.1, "V"⟩),
  ("battery_reconnect_voltage", ⟨0x0306, 1, 0.1, "V"⟩)]

/-- REGISTER_MAP of DeyeModbusProtocol (deye_protocol.py lines 31-90). -/
def DeyeRegisterMap : List (String × RegisterInfo) := [
  ("grid_voltage", ⟨0x0004, 1, 0.1, "V"⟩),
  ("grid_current", ⟨0x0005, 1, 0.1, "A"⟩),
  ("grid_power", ⟨0x0006, 1, 1, "W"⟩),
  ("pv1_voltage", ⟨0x0007, 1, 0.1, "V"⟩),
  ("pv1_current", ⟨0x0008, 1, 0.1, "A"⟩),
  ("pv1_power", ⟨0x0009, 1, 1, "W"⟩),
  ("pv2_voltage", ⟨0x000A, 1, 0.1, "V"⟩),
  ("pv2_current", ⟨0x000B, 1, 0.1, "A"⟩),
  ("pv2_power", ⟨0x000C, 1, 1, "W"⟩),
  ("battery_voltage", ⟨0x0011, 1, 0.1, "V"⟩),
  ("battery_current", ⟨0x0012, 1, 0.1, "A"⟩),
  ("battery_power", ⟨0x0013, 1, 1, "W"⟩),
  ("battery_soc", ⟨0x0014, 1, 1, "%"⟩),
  ("load_voltage", ⟨0x0015, 1, 0.1, "V"⟩),
  ("load_current", ⟨0x0016, 1, 0.1, "A"⟩),
  ("load_power", ⟨0x0017, 1, 1, "W"⟩),
  ("inverter_temperature", ⟨0x0018, 1, 1, "°C"⟩),
  ("operation_mode", ⟨0x0100, 1, 1, ""⟩),
  ("charge_source_priority", ⟨0x0101, 1, 1, ""⟩),
  ("output_source_priority", ⟨0x0102, 1, 1, ""⟩),
  ("max_charging_current", ⟨0x0103, 1, 1, "A"⟩),
  ("max_ac_charging_current", ⟨0x0104, 1, 1, "A"⟩),
  ("battery_type", ⟨0x0105, 1, 1, ""⟩),
  ("float_charging_voltage", ⟨0x0106, 1, 0.1, "V"⟩),
  ("bulk_charging_voltage", ⟨0x0107, 1, 0.1, "V"⟩),
  ("battery_cutoff_voltage", ⟨0x0108, 1, 0.1, "V"⟩),
  ("max_parallel_units", ⟨0x0109, 1, 1, ""⟩),
  ("machine_type", ⟨0x010A, 1, 1, ""⟩),
  ("topology", ⟨0x010B, 1, 1, ""⟩),
  ("output_model_setting", ⟨0x010C, 1, 1, ""⟩),
  ("solar_power_priority", ⟨0x010D, 1, 1, ""⟩),
  ("mppt_strings", ⟨0x010E, 1, 1, ""⟩),
  ("machine_model", ⟨0x010F, 1, 1, ""⟩),
  ("ac_input_voltage_range", ⟨0x0110, 1, 1, ""⟩),
  ("output_voltage", ⟨0x0111, 1, 0.1, "V"⟩),
  ("output_frequency", ⟨0x0112, 1, 0.1, "Hz"⟩),
  ("battery_reconnect_voltage", ⟨0x0113, 1, 0.1, "V"⟩),
  ("battery_under_voltage_alarm", ⟨0x0114, 1, 0.1, "V"⟩),
  ("discharge_limit_current", ⟨0x0115, 1, 1, "A"⟩),
  ("battery_equalization_enable", ⟨0x0116, 1, 1, ""⟩),
  ("battery_equalization_voltage", ⟨0x0117, 1, 0.1, "V"⟩),
  ("battery_equalization_time", ⟨0x0118, 1, 1, "min"⟩),
  ("battery_equalization_timeout", ⟨0x0119, 1, 1, "min"⟩),
  ("battery_equalization_interval", ⟨0x011A, 1, 1, "day"⟩),
  ("battery_equalization_boost", ⟨0x011B, 1, 1, ""⟩),
  ("pv_day_energy", ⟨0x0200, 1, 0.1, "kWh"⟩),
  ("pv_month_energy", ⟨0x0201, 1, 0.1, "kWh"⟩),
  ("pv_year_energy", ⟨0x0202, 1, 0.1, "kWh"⟩),
  ("pv_total_energy", ⟨0x0203, 2, 0.1, "kWh"⟩),
  ("today_energy", ⟨0x0205, 1, 0.1, "kWh"⟩),
  ("month_energy", ⟨0x0206, 1, 0.1, "kWh"⟩),
  ("year_energy", ⟨0x0207, 1, 0.1, "kWh"⟩),
  ("total_energy", ⟨0x0208, 2, 0.1, "kWh"⟩),
  ("co2_reduction", ⟨0x020A, 2, 0.1, "t"⟩),
  ("net_current", ⟨0x020C, 1, 0.1, "A"⟩),
  ("time_now", ⟨0x020D, 3, 1, ""⟩),
  ("error_codes", ⟨0x0300, 4, 1, ""⟩),
  ("warning_codes", ⟨0x0304, 4, 1, ""⟩)]

/-- Outcome of one pymodbus read_holding_registers call inside the retry
loop: a non-error response carrying response.registers, a response with
response.isError() true, or a raised exception (ModbusException / Exception,
both caught and followed by time.sleep). -/
inductive ReadOutcome where
  | ok (registers : List Nat)
  | errorResponse
  | exn
deriving DecidableEq, Repr

/-- Outcome of one pymodbus write_register call inside the retry loop. -/
inductive WriteOutcome where
  | ok
  | errorResponse
  | exn
deriving DecidableEq, Repr

/-- Boolean test for the successful read outcome. -/
def ReadOutcome.isOk : ReadOutcome → Bool
  | .ok _ => true
  | .errorResponse => false
  | .exn => false

/-- Oracle fixing the observable behaviour of the transport layer for one
adapter (pymodbus client construction, client.connect, and the per-attempt
outcomes of read_holding_registers / write_register, indexed by address,
count or value, and attempt number within one retry loop). The serial/TCP
branch of connect only chooses which client class is constructed; both are
abstracted here. ctorRaises models an exception raised before self.client is
assigned; an exception raised by client.connect() after assignment is
observationally the same as connectOk = false (both caught, is_connected set
to False, False returned). -/
structure Transport where
  ctorRaises : Bool
  connectOk : Bool
  read : Nat → Nat → Nat → ReadOutcome
  write : Nat → Int → Nat → WriteOutcome

/-- Config dict keys consulted by __init__ that matter to the modelled
behaviour; connection details (port, host, baudrate, ...) only parameterize
the Transport oracle. -/
structure ConfigDict where
  unit_id : Option Nat := none
  retries : Option Nat := none
deriving DecidableEq, Repr

/-- Mutable attributes of an adapter instance (identical in AnernProtocol and
DeyeModbusProtocol): self.client (None until first connect; constructed
clients get fresh Nat ids so replacement is observable, via the bookkeeping
counter nextId), self.is_connected, self.unit_id and self.retries. -/
structure Adapter where
  client : Option Nat
  is_connected : Bool
  unit_id : Nat
  retries : Nat
  nextId : Nat
deriving DecidableEq, Repr

/-- The __init__ method (anern.py lines 88-108, deye_protocol.py lines
118-138): client None, is_connected False, unit_id from config.get("unit_id",
1), retries from config.get("retries", 3). -/
def initAdapter (cfg : ConfigDict) : Adapter :=
  { client := none
    is_connected := false
    unit_id := cfg.unit_id.getD 1
    retries := cfg.retries.getD 3
    nextId := 0 }

/-- The connect method (anern.py lines 109-143, deye_protocol.py lines
139-173): unconditionally construct a fresh client (there is no is_connected
guard), then call client.connect(); on truthy result set is_connected True
and return True, otherwise (falsy result, or any caught exception) set
is_connected False and return False. -/
def connect (T : Transport) (s : Adapter) : Bool × Adapter :=
  if T.ctorRaises then
    (false, { s with is_connected := false })
  else
    let s' := { s with client := some s.nextId, nextId := s.nextId + 1 }
    if T.connectOk then (true, { s' with is_connected := true })
    else (false, { s' with is_connected := false })

/-- The disconnect method (anern.py lines 145-152, deye_protocol.py lines
175-182): close the client and clear is_connected only when self.client is
truthy and self.is_connected holds (short-circuit guard, so close is never
reached with an absent client); otherwise return False leaving the state
untouched. -/
def disconnect (s : Adapter) : Bool × Adapter :=
  match s.client, s.is_connected with
  | some _, true => (true, { s with is_connected := false })
  | _, _ => (false, s)

/-- The body of the retry loop of read_register: for attempt in
range(retries), where a non-error response returns response.registers at
once and both the isError branch and the caught-exception branches fall
through to the next attempt. Returns the result together with the number of
transaction attempts actually made. First argument after address and count
is the number of remaining attempts, second the current attempt index. -/
def readAttempts (T : Transport) (address count : Nat) : Nat → Nat → Option (List Nat) × Nat
  | 0, _ => (none, 0)
  | n + 1, i =>
    match T.read address count i with
    | .ok registers => (some registers, 1)
    | .errorResponse => ((readAttempts T address count n (i + 1)).1, (readAttempts T address count n (i + 1)).2 + 1)
    | .exn => ((readAttempts T address count n (i + 1)).1, (readAttempts T address count n (i + 1)).2 + 1)

/-- The body of the retry loop of write_register, analogous to readAttempts:
returns True on the first non-error response, False after exhaustion. -/
def writeAttempts (T : Transport) (address : Nat) (value : Int) : Nat → Nat → Bool × Nat
  | 0, _ => (false, 0)
  | n + 1, i =>
    match T.write address value i with
    | .ok => (true, 1)
    | .errorResponse => ((writeAttempts T address value n (i + 1)).1, (writeAttempts T address value n (i + 1)).2 + 1)
    | .exn => ((writeAttempts T address value n (i + 1)).1, (writeAttempts T address value n (i + 1)).2 + 1)

/-- The read_register method (anern.py lines 154-189, deye_protocol.py lines
184-219, identical): lazily connect when not connected (returning None when
the connect fails), then run the retry loop; nothing in the loop or after it
mutates is_connected or client. -/
def read_register (T : Transport) (address count : Nat) (s : Adapter) :
    Option (List Nat) × Adapter :=
  if s.is_connected then
    ((readAttempts T address count s.retries 0).1, s)
  else
    let c := connect T s
    if c.1 then ((readAttempts T address count c.2.retries 0).1, c.2)
    else (none, c.2)

/-- The write_register method (anern.py lines 191-226, deye_protocol.py lines
221-256, identical): same lazy-connect guard, then the write retry loop. -/
def write_register (T : Transport) (address : Nat) (value : Int) (s : Adapter) :
    Bool × Adapter :=
  if s.is_connected then
    ((writeAttempts T address value s.retries 0).1, s)
  else
    let c := connect T s
    if c.1 then ((writeAttempts T address value c.2.retries 0).1, c.2)
    else (false, c.2)

/-- Python int() applied to an exact number: truncation toward zero. -/
def truncQ (q : ℚ) : ℤ :=
  if 0 ≤ q then ⌊q⌋ else ⌈q⌉

/-- Register value computed by write_parameter before the write:
int(value / factor) (anern.py line 285, deye_protocol.py line 332). -/
def encodeForWrite (info : RegisterInfo) (v : ℚ) : ℤ :=
  truncQ (v / info.factor)

/-- The numeric decode branch shared by both read_parameter bodies (anern.py
lines 252-258, deye_protocol.py lines 299-304): size 1 scales the first word,
size 2 scales (registers[0] << 16 | registers[1]), any other size falls back
to scaling the first word. Indexing an absent element raises IndexError,
which the surrounding try-block catches into None. -/
def stdDecode (info : RegisterInfo) (registers : List Nat) : Option ParamValue :=
  if info.size = 1 then
    match registers with
    | r0 :: _ => some ⟨.num ((r0 : ℚ) * info.factor), info.unit⟩
    | [] => none
  else if info.size = 2 then
    match registers with
    | r0 :: r1 :: _ => some ⟨.num (((r0 <<< 16 ||| r1 : Nat) : ℚ) * info.factor), info.unit⟩
    | _ => none
  else
    match registers with
    | r0 :: _ => some ⟨.num ((r0 : ℚ) * info.factor), info.unit⟩
    | [] => none

/-- Zero-padded two-digit rendering used by the f-string {x:02d}. -/
def pad2 (n : Nat) : String :=
  if n < 10 then "0" ++ toString n else toString n

/-- The accumulation loop of the error_codes/warning_codes branch:
value = 0; for i, reg in enumerate(registers): value |= reg << (i * 16). -/
def bitmaskAcc : Nat → Nat → List Nat → Nat
  | acc, _, [] => acc
  | acc, i, r :: rs => bitmaskAcc (acc ||| (r <<< (i * 16))) (i + 1) rs

/-- Decode part of DeyeModbusProtocol.read_parameter (deye_protocol.py lines
282-306): the time_now special case reads registers[0..2] into an HH:MM:SS
string, the error_codes/warning_codes special case folds all returned words
into one bitmask, and every other name takes the shared numeric branch. -/
def deyeDecode (name : String) (info : RegisterInfo) (registers : List Nat) :
    Option ParamValue :=
  if name = "time_now" then
    match registers with
    | h :: m :: sec :: _ =>
        some ⟨.str (pad2 h ++ ":" ++ pad2 m ++ ":" ++ pad2 sec), ""⟩
    | _ => none
  else if name = "error_codes" ∨ name = "warning_codes" then
    some ⟨.num ((bitmaskAcc 0 0 registers : ℕ) : ℚ), info.unit⟩
  else
    stdDecode info registers

/-- The read_parameter method of AnernProtocol (anern.py lines 227-263):
unknown names return None, otherwise read size registers at address through
read_register and decode through the numeric branch. -/
def anernReadParameter (T : Transport) (name : String) (s : Adapter) :
    Option ParamValue × Adapter :=
  match lookupParam name AnernRegisterMap with
  | none => (none, s)
  | some info =>
    let r := read_register T info.address info.size s
    ((match r.1 with
      | none => none
      | some registers => stdDecode info registers), r.2)

/-- The read_parameter method of DeyeModbusProtocol (deye_protocol.py lines
258-310), with its name-dispatched decode. -/
def deyeReadParameter (T : Transport) (name : String) (s : Adapter) :
    Option ParamValue × Adapter :=
  match lookupParam name DeyeRegisterMap with
  | none => (none, s)
  | some info =>
    let r := read_register T info.address info.size s
    ((match r.1 with
      | none => none
      | some registers => deyeDecode name info registers), r.2)

/-- The write_parameter method of AnernProtocol (anern.py lines 265-287):
unknown names return False, otherwise a single write_register call at the
descriptor address with int(value / factor); size is never consulted. -/
def anernWriteParameter (T : Transport) (name : String) (v : ℚ) (s : Adapter) :
    Bool × Adapter :=
  match lookupParam name AnernRegisterMap with
  | none => (false, s)
  | some info => write_register T info.address (encodeForWrite info v) s

/-- The write_parameter method of DeyeModbusProtocol (deye_protocol.py lines
312-334), textually identical to the Anern one apart from the map. -/
def deyeWriteParameter (T : Transport) (name : String) (v : ℚ) (s : Adapter) :
    Bool × Adapter :=
  match lookupParam name DeyeRegisterMap with
  | none => (false, s)
  | some info => write_register T info.address (encodeForWrite info v) s

/-- Entry of the get_status result dict: either a read_parameter result dict
or the boolean True stored under "has_errors". -/
inductive StatusEntry where
  | param (p : ParamValue)
  | flag (b : Bool)
deriving DecidableEq, Repr

/-- Truthiness-plus-comparison guard value["value"] > 0 used by get_status on
error/warning entries. The error and warning registers always decode through
a numeric branch, so the string case is unreachable there; a string would
raise in Python and is modelled as false. -/
def PyValue.gtZero : PyValue → Bool
  | .num q => decide (0 < q)
  | .str _ => false

/-- Key membership in the insertion-ordered dict model. -/
def hasKey (k : String) (d : List (String × StatusEntry)) : Bool :=
  d.any (fun p => p.1 == k)

/-- Python dict assignment d[k] = v on an insertion-ordered association
list: overwrite in place when the key exists, append otherwise. -/
def dictInsert (k : String) (v : StatusEntry) (d : List (String × StatusEntry)) :
    List (String × StatusEntry) :=
  if hasKey k d then d.map (fun p => if p.1 == k then (k, v) else p)
  else d ++ [(k, v)]

/-- The main loop of get_status: for param in parameters, read it and store
the result under its name when the read succeeded (a result dict is always
truthy, None is falsy). -/
def statusFold (readP : String → Adapter → Option ParamValue × Adapter) :
    List String → List (String × StatusEntry) → Adapter →
    List (String × StatusEntry) × Adapter
  | [], acc, s => (acc, s)
  | n :: rest, acc, s =>
    match readP n s with
    | (some pv, s') => statusFold readP rest (dictInsert n (.param pv) acc) s'
    | (none, s') => statusFold readP rest acc s'

/-- Headline parameter list of AnernProtocol.get_status (anern.py lines
299-303). -/
def anernStatusParams : List String :=
  ["operation_mode", "grid_voltage", "output_voltage", "output_power",
   "pv_voltage", "pv_power", "battery_voltage", "battery_current",
   "battery_soc", "inverter_temperature"]

/-- Headline parameter list of DeyeModbusProtocol.get_status
(deye_protocol.py lines 346-353). -/
def deyeStatusParams : List String :=
  ["grid_voltage", "grid_power",
   "pv1_voltage", "pv1_power",
   "pv2_voltage", "pv2_power",
   "battery_voltage", "battery_soc", "battery_power",
   "load_voltage", "load_power",
   "inverter_temperature", "operation_mode"]

/-- State and accumulated dict after the main loop of
AnernProtocol.get_status. -/
def anernStatusMain (T : Transport) (s : Adapter) :
    List (String × StatusEntry) × Adapter :=
  statusFold (anernReadParameter T) anernStatusParams [] s

/-- The get_status method of AnernProtocol (anern.py lines 289-322): the main
loop, then reads of error_flags_1 and error_flags_2; each flag entry (and the
accompanying "has_errors": True) is stored only when the read succeeded and
its value compares greater than zero. -/
def anernGetStatus (T : Transport) (s : Adapter) :
    List (String × StatusEntry) × Adapter :=
  let m := anernStatusMain T s
  let r1 := anernReadParameter T "error_flags_1" m.2
  let r2 := anernReadParameter T "error_flags_2" r1.2
  let st1 := match r1.1 with
    | some pv =>
        if pv.value.gtZero then
          dictInsert "error_flags_1" (.param pv) (dictInsert "has_errors" (.flag true) m.1)
        else m.1
    | none => m.1
  let st2 := match r2.1 with
    | some pv =>
        if pv.value.gtZero then
          dictInsert "error_flags_2" (.param pv) (dictInsert "has_errors" (.flag true) st1)
        else st1
    | none => st1
  (st2, r2.2)

/-- State and accumulated dict after the main loop of
DeyeModbusProtocol.get_status. -/
def deyeStatusMain (T : Transport) (s : Adapter) :
    List (String × StatusEntry) × Adapter :=
  statusFold (deyeReadParameter T) deyeStatusParams [] s

/-- The get_status method of DeyeModbusProtocol (deye_protocol.py lines
336-370): the main loop, then reads of error_codes and warning_codes stored
under "errors" and "warnings" only when positive. -/
def deyeGetStatus (T : Transport) (s : Adapter) :
    List (String × StatusEntry) × Adapter :=
  let m := deyeStatusMain T s
  let r1 := deyeReadParameter T "error_codes" m.2
  let r2 := deyeReadParameter T "warning_codes" r1.2
  let st1 := match r1.1 with
    | some pv => if pv.value.gtZero then dictInsert "errors" (.param pv) m.1 else m.1
    | none => m.1
  let st2 := match r2.1 with
    | some pv => if pv.value.gtZero then dictInsert "warnings" (.param pv) st1 else st1
    | none => st1
  (st2, r2.2)

/-- A connected adapter state used by concrete scenarios. -/
def connSt : Adapter :=
  { client := some 0, is_connected := true, unit_id := 1, retries := 3, nextId := 1 }

/-- Oracle on which every transaction attempt fails with an error response
and connecting a fresh client also fails. -/
def failT : Transport :=
  { ctorRaises := false
    connectOk := false
    read := fun _ _ _ => .errorResponse
    write := fun _ _ _ => .errorResponse }

/-- Oracle on which connects succeed, every read returns the fixed word list
regs, and every write succeeds. -/
def constReadT (regs : List Nat) : Transport :=
  { ctorRaises := false
    connectOk := true
    read := fun _ _ _ => .ok regs
    write := fun _ _ _ => .ok }

/-- Oracle accepting exactly the writes that carry the value v0; reads fail.
Used to observe which register value a write path sends. -/
def writeOnlyT (v0 : ℤ) : Transport :=
  { ctorRaises := false
    connectOk := true
    read := fun _ _ _ => .errorResponse
    write := fun _ w _ => if w = v0 then .ok else .errorResponse }

/-! Helper lemmas shared by the claim theorems. -/

/-- Successful lookup means the pair is an entry of the map. -/
theorem lookupParam_mem {name : String} {info : RegisterInfo} :
    ∀ {m : List (String × RegisterInfo)}, lookupParam name m = some info → (name, info) ∈ m := by
  intro m
  induction m with
  | nil => intro h; exact absurd h (by simp [lookupParam])
  | cons p rest ih =>
    intro h
    obtain ⟨k, v⟩ := p
    rw [lookupParam] at h
    by_cases hk : k = name
    · rw [if_pos hk] at h
      injection h with hv
      subst hk
      subst hv
      exact List.mem_cons_self _ _
    · rw [if_neg hk] at h
      exact List.mem_cons_of_mem _ (ih h)

/-- Every scale factor of the Anern map is positive. -/
theorem anern_factor_pos {name : String} {info : RegisterInfo}
    (h : lookupParam name AnernRegisterMap = some info) : 0 < info.factor := by
  have hall : ∀ p ∈ AnernRegisterMap, 0 < p.2.factor := by with_unfolding_all decide
  exact hall _ (lookupParam_mem h)

/-- Every size-2 entry of the Deye map avoids the three name-special-cased
decode branches. -/
theorem deye_size2_not_special {name : String} {info : RegisterInfo}
    (h : lookupParam name DeyeRegisterMap = some info) (hs : info.size = 2) :
    name ≠ "time_now" ∧ name ≠ "error_codes" ∧ name ≠ "warning_codes" := by
  have hall : ∀ p ∈ DeyeRegisterMap, p.2.size = 2 →
      p.1 ≠ "time_now" ∧ p.1 ≠ "error_codes" ∧ p.1 ≠ "warning_codes" := by with_unfolding_all decide
  exact hall _ (lookupParam_mem h) hs

/-- When every attempt fails, the read retry loop makes exactly the given
number of attempts and yields no value. -/
theorem readAttempts_allFail (T : Transport) (a c : Nat)
    (h : ∀ i, (T.read a c i).isOk = false) :
    ∀ n i, readAttempts T a c n i = (none, n) := by
  intro n
  induction n with
  | zero => intro i; rfl
  | succ m ih =>
    intro i
    rw [readAttempts]
    cases hr : T.read a c i with
    | ok registers => have := h i; rw [hr] at this; exact absurd this (by simp [ReadOutcome.isOk])
    | errorResponse => simp [ih (i + 1)]
    | exn => simp [ih (i + 1)]

/-- When every attempt fails, the write retry loop makes exactly the given
number of attempts and returns False. -/
theorem writeAttempts_allFail (T : Transport) (a : Nat) (w : Int)
    (h : ∀ i, T.write a w i ≠ WriteOutcome.ok) :
    ∀ n i, writeAttempts T a w n i = (false, n) := by
  intro n
  induction n with
  | zero => intro i; rfl
  | succ m ih =>
    intro i
    rw [writeAttempts]
    cases hr : T.write a w i with
    | ok => exact absurd hr (h i)
    | errorResponse => simp [ih (i + 1)]
    | exn => simp [ih (i + 1)]

/-- Overwriting an existing key in place leaves the key set unchanged. -/
theorem hasKey_mapUpdate (k k' : String) (v : StatusEntry) :
    ∀ d : List (String × StatusEntry),
      hasKey k (d.map (fun p => if p.1 == k' then (k', v) else p)) = hasKey k d := by
  intro d
  induction d with
  | nil => rfl
  | cons p rest ih =>
    simp only [List.map_cons, hasKey, List.any_cons] at ih ⊢
    rw [ih]
    by_cases hp : p.1 == k'
    · have hp' : p.1 = k' := beq_iff_eq.mp hp
      simp [hp, hp']
    · simp [hp]

/-- Dict assignment adds exactly the assigned key to the key set. -/
theorem hasKey_dictInsert (k k' : String) (v : StatusEntry)
    (d : List (String × StatusEntry)) :
    hasKey k (dictInsert k' v d) = (hasKey k d || (k == k')) := by
  unfold dictInsert
  by_cases hin : hasKey k' d
  · rw [if_pos hin, hasKey_mapUpdate]
    by_cases hkk : k = k'
    · subst hkk
      simp [hin]
    · simp [hkk]
  · rw [if_neg hin]
    simp only [hasKey, List.any_append, List.any_cons, List.any_nil, Bool.or_false]
    congr 1
    by_cases hkk : k = k' <;> simp [hkk, Ne.symm, eq_comm]

/-- Keys present after the get_status main loop come from the accumulator or
from the parameter name list. -/
theorem hasKey_statusFold (readP : String → Adapter → Option ParamValue × Adapter)
    (k : String) :
    ∀ (names : List String) (acc : List (String × StatusEntry)) (s : Adapter),
      hasKey k (statusFold readP names acc s).1 = true →
      hasKey k acc = true ∨ k ∈ names := by
  intro names
  induction names with
  | nil => intro acc s h; exact Or.inl h
  | cons n rest ih =>
    intro acc s h
    rw [statusFold] at h
    rcases hp : readP n s with ⟨r, s'⟩
    rw [hp] at h
    cases r with
    | some pv =>
      rcases ih _ _ h with h1 | h1
      · rw [hasKey_dictInsert] at h1
        rcases Bool.or_eq_true_iff.mp h1 with h2 | h2
        · exact Or.inl h2
        · refine Or.inr ?_
          rw [beq_iff_eq.mp h2]
          exact List.mem_cons_self _ _
      · exact Or.inr (List.mem_cons_of_mem _ h1)
    | none =>
      rcases ih _ _ h with h1 | h1
      · exact Or.inl h1
      · exact Or.inr (List.mem_cons_of_mem _ h1)

/-- Connection invariant: a connected adapter owns a constructed client. -/
def connInv (s : Adapter) : Prop :=
  s.is_connected = true → s.client.isSome = true

/-- Connect always reestablishes the invariant, whatever state it starts
from. -/
theorem connect_connInv (T : Transport) (s : Adapter) : connInv (connect T s).2 := by
  unfold connect connInv
  by_cases hc : T.ctorRaises
  · simp [hc]
  · by_cases ho : T.connectOk <;> simp [hc, ho]

/-- The state read_register finishes in is the entry state or the state of
the lazy connect. -/
theorem read_register_snd (T : Transport) (a c : Nat) (s : Adapter) :
    (read_register T a c s).2 = s ∨ (read_register T a c s).2 = (connect T s).2 := by
  unfold read_register
  by_cases h : s.is_connected
  · simp [h]
  · by_cases hc : (connect T s).1 <;> simp [h, hc]

/-- The state write_register finishes in is the entry state or the state of
the lazy connect. -/
theorem write_register_snd (T : Transport) (a : Nat) (w : Int) (s : Adapter) :
    (write_register T a w s).2 = s ∨ (write_register T a w s).2 = (connect T s).2 := by
  unfold write_register
  by_cases h : s.is_connected
  · simp [h]
  · by_cases hc : (connect T s).1 <;> simp [h, hc]

/-- read_register preserves the connection invariant. -/
theorem read_register_connInv (T : Transport) (a c : Nat) (s : Adapter)
    (h : connInv s) : connInv (read_register T a c s).2 := by
  rcases read_register_snd T a c s with he | he <;> rw [he]
  · exact h
  · exact connect_connInv T s

/-- write_register preserves the connection invariant. -/
theorem write_register_connInv (T : Transport) (a : Nat) (w : Int) (s : Adapter)
    (h : connInv s) : connInv (write_register T a w s).2 := by
  rcases write_register_snd T a w s with he | he <;> rw [he]
  · exact h
  · exact connect_connInv T s

/-- anernReadParameter preserves the connection invariant. -/
theorem anernReadParameter_connInv (T : Transport) (n : String) (s : Adapter)
    (h : connInv s) : connInv (anernReadParameter T n s).2 := by
  unfold anernReadParameter
  cases hl : lookupParam n AnernRegisterMap with
  | none => exact h
  | some info => exact read_register_connInv T _ _ s h

/-- deyeReadParameter preserves the connection invariant. -/
theorem deyeReadParameter_connInv (T : Transport) (n : String) (s : Adapter)
    (h : connInv s) : connInv (deyeReadParameter T n s).2 := by
  unfold deyeReadParameter
  cases hl : lookupParam n DeyeRegisterMap with
  | none => exact h
  | some info => exact read_register_connInv T _ _ s h

/-- anernWriteParameter preserves the connection invariant. -/
theorem anernWriteParameter_connInv (T : Transport) (n : String) (v : ℚ) (s : Adapter)
    (h : connInv s) : connInv (anernWriteParameter T n v s).2 := by
  unfold anernWriteParameter
  cases hl : lookupParam n AnernRegisterMap with
  | none => exact h
  | some info => exact write_register_connInv T _ _ s h

/-- deyeWriteParameter preserves the connection invariant. -/
theorem deyeWriteParameter_connInv (T : Transport) (n : String) (v : ℚ) (s : Adapter)
    (h : connInv s) : connInv (deyeWriteParameter T n v s).2 := by
  unfold deyeWriteParameter
  cases hl : lookupParam n DeyeRegisterMap with
  | none => exact h
  | some info => exact write_register_connInv T _ _ s h

/-- The get_status main loop preserves the connection invariant. -/
theorem statusFold_connInv (readP : String → Adapter → Option ParamValue × Adapter)
    (hp : ∀ n s, connInv s → connInv (readP n s).2) :
    ∀ (names : List String) (acc : List (String × StatusEntry)) (s : Adapter),
      connInv s → connInv (statusFold readP names acc s).2 := by
  intro names
  induction names with
  | nil => intro acc s h; exact h
  | cons n rest ih =>
    intro acc s h
    rw [statusFold]
    rcases hpair : readP n s with ⟨r, s'⟩
    have h' : connInv s' := by
      have := hp n s h
      rw [hpair] at this
      exact this
    cases r with
    | some pv => exact ih _ _ h'
    | none => exact ih _ _ h'

/-- Truncation toward zero lands within one unit of its argument. -/
theorem truncQ_sub_lt (x : ℚ) : |(truncQ x : ℚ) - x| < 1 := by
  unfold truncQ
  split
  · rw [abs_sub_comm, abs_of_nonneg (by linarith [Int.floor_le x])]
    linarith [Int.lt_floor_add_one x]
  · rw [abs_of_nonneg (by linarith [Int.le_ceil x])]
    linarith [Int.ceil_lt_add_one x]

/-- Scaling the truncated quotient back up lands within one scale unit of
the original value. -/
theorem trunc_mul_close (f v : ℚ) (hf : 0 < f) :
    |(truncQ (v / f) : ℚ) * f - v| ≤ f := by
  have hne : f ≠ 0 := ne_of_gt hf
  have hd : (truncQ (v / f) : ℚ) * f - v = ((truncQ (v / f) : ℚ) - v / f) * f := by
    field_simp
  rw [hd, abs_mul, abs_of_pos hf]
  have hb := truncQ_sub_lt (v / f)
  nlinarith [abs_nonneg ((truncQ (v / f) : ℚ) - v / f)]

/-- A nonnegative argument truncates to a nonnegative integer. -/
theorem truncQ_nonneg {x : ℚ} (hx : 0 ≤ x) : 0 ≤ truncQ x := by
  unfold truncQ
  rw [if_pos hx]
  exact Int.floor_nonneg.mpr hx

/-- Keys absent from the parameter name list are absent after the get_status
main loop. -/
theorem hasKey_statusMain_false (readP : String → Adapter → Option ParamValue × Adapter)
    (names : List String) (s : Adapter) (k : String) (hk : k ∉ names) :
    hasKey k (statusFold readP names [] s).1 = false := by
  cases hb : hasKey k (statusFold readP names [] s).1 with
  | false => rfl
  | true =>
    rcases hasKey_statusFold readP k names [] s hb with h | h
    · simp [hasKey] at h
    · exact absurd h hk

/-- The whole Anern get_status sequence preserves the connection invariant. -/
theorem anernGetStatus_connInv (T : Transport) (s : Adapter) (h : connInv s) :
    connInv (anernGetStatus T s).2 := by
  unfold anernGetStatus
  exact anernReadParameter_connInv T _ _
    (anernReadParameter_connInv T _ _
      (statusFold_connInv (anernReadParameter T)
        (fun n s h => anernReadParameter_connInv T n s h) anernStatusParams [] s h))

/-- The whole Deye get_status sequence preserves the connection invariant. -/
theorem deyeGetStatus_connInv (T : Transport) (s : Adapter) (h : connInv s) :
    connInv (deyeGetStatus T s).2 := by
  unfold deyeGetStatus
  exact deyeReadParameter_connInv T _ _
    (deyeReadParameter_connInv T _ _
      (statusFold_connInv (deyeReadParameter T)
        (fun n s h => deyeReadParameter_connInv T n s h) deyeStatusParams [] s h))

/-! Claim theorems. -/

/-- C1, counterexample: write_parameter does not encode with round-to-nearest.
For the Anern parameter max_charging_current (scale 1) and value 2.9, the
register value actually sent is int(2.9 / 1) = 2, while round(2.9 / 1) = 3:
under an oracle accepting only value 2 the write succeeds, and under an
oracle accepting only the rounded value 3 it fails. -/
theorem C1_counterexample :
    lookupParam "max_charging_current" AnernRegisterMap = some ⟨0x0300, 1, 1, "A"⟩ ∧
    encodeForWrite ⟨0x0300, 1, 1, "A"⟩ (29/10) = 2 ∧
    round ((29/10 : ℚ) / 1) = 3 ∧
    (anernWriteParameter (writeOnlyT 2) "max_charging_current" (29/10) connSt).1 = true ∧
    (anernWriteParameter (writeOnlyT 3) "max_charging_current" (29/10) connSt).1 = false := by
  refine ⟨?_, ?_, ?_, ?_, ?_⟩ <;> with_unfolding_all rfl

/-- C1, amended: for every parameter name present in the register map and
every numeric value v, write_parameter encodes the register value as
int(v / scale) — truncation toward zero of v divided by the descriptor's
scale, not round-to-nearest — before issuing the single-register write; the
behavioural part shows an observing oracle accepts the write exactly when it
carries that truncated value. -/
theorem C1_encode_truncates :
    (∀ (name : String) (info : RegisterInfo) (v : ℚ),
      lookupParam name AnernRegisterMap = some info →
      ∀ (T : Transport) (s : Adapter),
        anernWriteParameter T name v s =
          write_register T info.address (truncQ (v / info.factor)) s) ∧
    (∀ (name : String) (info : RegisterInfo) (v : ℚ),
      lookupParam name DeyeRegisterMap = some info →
      ∀ (T : Transport) (s : Adapter),
        deyeWriteParameter T name v s =
          write_register T info.address (truncQ (v / info.factor)) s) ∧
    (∀ (name : String) (info : RegisterInfo) (v : ℚ) (z : ℤ),
      lookupParam name AnernRegisterMap = some info →
      ((anernWriteParameter (writeOnlyT z) name v connSt).1 = true ↔
        truncQ (v / info.factor) = z)) := by
  refine ⟨?_, ?_, ?_⟩
  · intro name info v hl T s
    unfold anernWriteParameter
    rw [hl]
    rfl
  · intro name info v hl T s
    unfold deyeWriteParameter
    rw [hl]
    rfl
  · intro name info v z hl
    unfold anernWriteParameter
    rw [hl]
    have hconn : connSt.is_connected = true := rfl
    by_cases hz : truncQ (v / info.factor) = z
    · have hfirst : (writeOnlyT z).write info.address (encodeForWrite info v) 0 = .ok := by
        simp [writeOnlyT, encodeForWrite, hz]
      have hwa : writeAttempts (writeOnlyT z) info.address (encodeForWrite info v) 3 0 = (true, 1) := by
        rw [show (3 : Nat) = 2 + 1 from rfl, writeAttempts, hfirst]
      simp [write_register, hconn, connSt, hwa, hz]
    · have hall : ∀ i, (writeOnlyT z).write info.address (encodeForWrite info v) i ≠ .ok := by
        intro i
        simp [writeOnlyT, encodeForWrite, hz]
      have hwa := writeAttempts_allFail (writeOnlyT z) info.address (encodeForWrite info v) hall
      simp [write_register, hconn, connSt, hwa, hz]

/-- C1, witness for the amended theorem at the Anern parameter
battery_cutoff_voltage and value 13.5. -/
theorem C1_encode_truncates_witness :
    anernWriteParameter failT "battery_cutoff_voltage" (27/2) connSt =
      write_register failT 0x0305 (truncQ ((27/2) / (0.1 : ℚ))) connSt :=
  C1_encode_truncates.1 "battery_cutoff_voltage" ⟨0x0305, 1, 0.1, "V"⟩ (27/2)
    (by with_unfolding_all rfl) failT connSt

/-- C2, counterexample: a read transaction that exhausts all retry attempts
while the session is Connected leaves is_connected true — the session does
not transition to Disconnected before returning its failure result. -/
theorem C2_counterexample :
    connSt.is_connected = true ∧
    (read_register failT 0x0100 1 connSt).1 = none ∧
    (read_register failT 0x0100 1 connSt).2.is_connected = true := by
  refine ⟨rfl, ?_, ?_⟩ <;> with_unfolding_all rfl

/-- C2, amended: when a read or write transaction starts while the session
is Connected, the whole adapter state — in particular is_connected — is left
completely unchanged, whatever the transaction outcome; exhaustion of
retries does not transition the session to Disconnected. -/
theorem C2_no_disconnect_on_exhaustion (T : Transport) (a c : Nat) (w : Int)
    (s : Adapter) (h : s.is_connected = true) :
    (read_register T a c s).2 = s ∧ (write_register T a w s).2 = s := by
  constructor
  · simp [read_register, h]
  · simp [write_register, h]

/-- C2, witness for the amended theorem on a connected state under the
always-failing oracle. -/
theorem C2_no_disconnect_on_exhaustion_witness :
    (read_register failT 0x0100 1 connSt).2 = connSt ∧
    (write_register failT 0x0100 5 connSt).2 = connSt :=
  C2_no_disconnect_on_exhaustion failT 0x0100 1 5 connSt rfl

/-- C3, counterexample: when the transport returns two words for the Anern
parameter grid_voltage, whose descriptor has wordCount 1, decoding does not
fail at all — read_parameter silently scales the first word and succeeds
with value 10.0 V. -/
theorem C3_counterexample :
    lookupParam "grid_voltage" AnernRegisterMap = some ⟨0x0100, 1, 0.1, "V"⟩ ∧
    (anernReadParameter (constReadT [100, 200]) "grid_voltage" connSt).1 =
      some ⟨.num 10, "V"⟩ := by
  constructor <;> with_unfolding_all rfl

/-- C3, amended: no wordCount check is performed on the returned word
sequence. A response with more words than the decode needs is silently
decoded from its first word(s) and succeeds; a response with fewer words
than the decode needs yields None through a caught IndexError — the same
None a transport failure produces, so a caller cannot tell a length
mismatch apart from a transport error. -/
theorem C3_no_length_check :
    (∀ (info : RegisterInfo) (r0 : Nat) (rest : List Nat), info.size = 1 →
      stdDecode info (r0 :: rest) = some ⟨.num ((r0 : ℚ) * info.factor), info.unit⟩) ∧
    (∀ (info : RegisterInfo) (r0 : Nat), info.size = 2 →
      stdDecode info [r0] = none) ∧
    (deyeReadParameter (constReadT [7]) "pv_total_energy" connSt).1 = none ∧
    (deyeReadParameter failT "pv_total_energy" connSt).1 = none := by
  refine ⟨?_, ?_, ?_, ?_⟩
  · intro info r0 rest h
    simp [stdDecode, h]
  · intro info r0 h
    simp [stdDecode, h]
  · with_unfolding_all rfl
  · with_unfolding_all rfl

/-- C3, witness for the amended theorem: a size-1 descriptor decodes a
two-word response from its first word, and a size-2 descriptor fed one word
decodes to None. -/
theorem C3_no_length_check_witness :
    stdDecode ⟨0x0100, 1, 0.1, "V"⟩ [100, 200] =
      some ⟨.num ((100 : ℚ) * (0.1 : ℚ)), "V"⟩ ∧
    stdDecode ⟨0x0203, 2, 0.1, "kWh"⟩ [7] = none :=
  ⟨C3_no_length_check.1 ⟨0x0100, 1, 0.1, "V"⟩ 100 [200] rfl,
   C3_no_length_check.2.1 ⟨0x0203, 2, 0.1, "kWh"⟩ 7 rfl⟩

/-- C4, counterexample: calling connect() while already Connected is not a
no-op that leaves state unchanged. Starting from a connected state holding
client 0, a connect whose underlying attempt fails returns False and leaves
the session Disconnected with a freshly constructed client; even a
successful connect replaces the existing client. -/
theorem C4_counterexample :
    connSt.is_connected = true ∧
    connect failT connSt =
      (false, { client := some 1, is_connected := false, unit_id := 1,
                retries := 3, nextId := 2 }) ∧
    (connect (constReadT []) connSt).2.client ≠ connSt.client := by
  refine ⟨rfl, ?_, ?_⟩ <;> with_unfolding_all decide

/-- C4, amended: connect() has no already-connected guard. Unless client
construction itself raises, it always installs a freshly constructed client
(replacing any existing one) and attempts a new connection; the returned
boolean and the resulting is_connected equal the outcome of that new
attempt, regardless of the prior state — so a failing connect disconnects a
previously connected session. -/
theorem C4_connect_rebuilds (T : Transport) (s : Adapter)
    (h : T.ctorRaises = false) :
    (connect T s).2.client = some s.nextId ∧
    (connect T s).1 = T.connectOk ∧
    (connect T s).2.is_connected = T.connectOk := by
  unfold connect
  rw [h]
  by_cases ho : T.connectOk <;> simp [ho]

/-- C4, witness for the amended theorem on a connected state under the
failing-connect oracle. -/
theorem C4_connect_rebuilds_witness :
    (connect failT connSt).2.client = some connSt.nextId ∧
    (connect failT connSt).1 = failT.connectOk ∧
    (connect failT connSt).2.is_connected = failT.connectOk :=
  C4_connect_rebuilds failT connSt rfl

/-- C5, confirmed: when the session is connected and every underlying
transport attempt fails transiently, read_parameter returns None and
write_parameter returns False (for both adapters), and the retry loops make
exactly self.retries transaction attempts — not more, not fewer; the config
key "retries" defaults to 3. -/
theorem C5_retry_exhaustion (T : Transport) (name : String) (v : ℚ) (s : Adapter)
    (hconn : s.is_connected = true)
    (hr : ∀ a c i, (T.read a c i).isOk = false)
    (hw : ∀ a w i, T.write a w i ≠ WriteOutcome.ok) :
    (anernReadParameter T name s).1 = none ∧
    (anernWriteParameter T name v s).1 = false ∧
    (deyeReadParameter T name s).1 = none ∧
    (deyeWriteParameter T name v s).1 = false ∧
    (∀ a c, (readAttempts T a c s.retries 0).2 = s.retries) ∧
    (∀ a w, (writeAttempts T a w s.retries 0).2 = s.retries) ∧
    (initAdapter {}).retries = 3 := by
  refine ⟨?_, ?_, ?_, ?_, ?_, ?_, rfl⟩
  · unfold anernReadParameter
    cases hl : lookupParam name AnernRegisterMap with
    | none => rfl
    | some info =>
      have hra := readAttempts_allFail T info.address info.size (hr _ _) s.retries 0
      simp [read_register, hconn, hra]
  · unfold anernWriteParameter
    cases hl : lookupParam name AnernRegisterMap with
    | none => rfl
    | some info =>
      have hwa := writeAttempts_allFail T info.address (encodeForWrite info v) (hw _ _) s.retries 0
      simp [write_register, hconn, hwa]
  · unfold deyeReadParameter
    cases hl : lookupParam name DeyeRegisterMap with
    | none => rfl
    | some info =>
      have hra := readAttempts_allFail T info.address info.size (hr _ _) s.retries 0
      simp [read_register, hconn, hra]
  · unfold deyeWriteParameter
    cases hl : lookupParam name DeyeRegisterMap with
    | none => rfl
    | some info =>
      have hwa := writeAttempts_allFail T info.address (encodeForWrite info v) (hw _ _) s.retries 0
      simp [write_register, hconn, hwa]
  · intro a c
    simp [readAttempts_allFail T a c (hr a c) s.retries 0]
  · intro a w
    simp [writeAttempts_allFail T a w (hw a w) s.retries 0]

/-- C5, witness on the connected state under the always-failing oracle. -/
theorem C5_retry_exhaustion_witness :
    (anernReadParameter failT "grid_voltage" connSt).1 = none ∧
    (anernWriteParameter failT "grid_voltage" (0 : ℚ) connSt).1 = false ∧
    (deyeReadParameter failT "grid_voltage" connSt).1 = none ∧
    (deyeWriteParameter failT "grid_voltage" (0 : ℚ) connSt).1 = false ∧
    (∀ a c, (readAttempts failT a c connSt.retries 0).2 = connSt.retries) ∧
    (∀ a w, (writeAttempts failT a w connSt.retries 0).2 = connSt.retries) ∧
    (initAdapter {}).retries = 3 :=
  C5_retry_exhaustion failT "grid_voltage" 0 connSt rfl
    (fun _ _ _ => rfl) (fun _ _ _ h => WriteOutcome.noConfusion h)

/-- C6, confirmed: every descriptor with wordCount 2 decodes its two words
as (words[0] << 16) | words[1] — first word high, second word low — scaled
by the descriptor's factor, in the shared numeric branch and in the Deye
read path for every size-2 map entry; in particular words [0x0001, 0x0000]
with scale 0.1 decode to 6553.6. -/
theorem C6_wide_decode :
    (∀ (info : RegisterInfo) (r0 r1 : Nat) (rest : List Nat), info.size = 2 →
      stdDecode info (r0 :: r1 :: rest) =
        some ⟨.num (((r0 <<< 16 ||| r1 : Nat) : ℚ) * info.factor), info.unit⟩) ∧
    (∀ (name : String) (info : RegisterInfo) (r0 r1 : Nat) (rest : List Nat),
      lookupParam name DeyeRegisterMap = some info → info.size = 2 →
      deyeDecode name info (r0 :: r1 :: rest) =
        some ⟨.num (((r0 <<< 16 ||| r1 : Nat) : ℚ) * info.factor), info.unit⟩) ∧
    stdDecode ⟨0x0203, 2, 0.1, "kWh"⟩ [0x0001, 0x0000] =
      some ⟨.num 6553.6, "kWh"⟩ := by
  refine ⟨?_, ?_, ?_⟩
  · intro info r0 r1 rest h
    simp [stdDecode, h]
  · intro name info r0 r1 rest hl hs
    obtain ⟨h1, h2, h3⟩ := deye_size2_not_special hl hs
    simp [deyeDecode, h1, h2, h3, stdDecode, hs]
  · with_unfolding_all rfl

/-- C6, witness at the Deye parameter total_energy with words [2, 5] (and a
trailing ignored word in the read path). -/
theorem C6_wide_decode_witness :
    stdDecode ⟨0x0208, 2, 0.1, "kWh"⟩ [2, 5] =
      some ⟨.num (((2 <<< 16 ||| 5 : Nat) : ℚ) * (0.1 : ℚ)), "kWh"⟩ ∧
    deyeDecode "total_energy" ⟨0x0208, 2, 0.1, "kWh"⟩ [2, 5, 9] =
      some ⟨.num (((2 <<< 16 ||| 5 : Nat) : ℚ) * (0.1 : ℚ)), "kWh"⟩ :=
  ⟨C6_wide_decode.1 ⟨0x0208, 2, 0.1, "kWh"⟩ 2 5 [] rfl,
   C6_wide_decode.2.1 "total_energy" ⟨0x0208, 2, 0.1, "kWh"⟩ 2 5 [9]
     (by with_unfolding_all rfl) rfl⟩

/-- C7, confirmed: for every single-word Anern parameter and every
nonnegative value v, the register value written by the encode path decodes
back (through the size-1 numeric branch) to a value within one scale unit
of v: decode(encode(v)) differs from v by at most the descriptor's factor. -/
theorem C7_roundtrip (name : String) (info : RegisterInfo) (v : ℚ)
    (hl : lookupParam name AnernRegisterMap = some info)
    (hsize : info.size = 1) (hv : 0 ≤ v) :
    stdDecode info [(encodeForWrite info v).toNat] =
      some ⟨.num (((encodeForWrite info v).toNat : ℚ) * info.factor), info.unit⟩ ∧
    |((encodeForWrite info v).toNat : ℚ) * info.factor - v| ≤ info.factor := by
  have hf : 0 < info.factor := anern_factor_pos hl
  constructor
  · simp [stdDecode, hsize]
  · have hx : 0 ≤ v / info.factor := div_nonneg hv (le_of_lt hf)
    have he : 0 ≤ encodeForWrite info v := truncQ_nonneg hx
    have hc : ((encodeForWrite info v).toNat : ℚ) = ((encodeForWrite info v : ℤ) : ℚ) := by
      exact_mod_cast congrArg (fun z : ℤ => (z : ℚ)) (Int.toNat_of_nonneg he)
    rw [hc]
    exact trunc_mul_close info.factor v hf

/-- C7, witness at the Anern parameter battery_cutoff_voltage (scale 0.1)
and value 13.5. -/
theorem C7_roundtrip_witness :
    stdDecode ⟨0x0305, 1, 0.1, "V"⟩
        [(encodeForWrite ⟨0x0305, 1, 0.1, "V"⟩ (27/2)).toNat] =
      some ⟨.num (((encodeForWrite ⟨0x0305, 1, 0.1, "V"⟩ (27/2)).toNat : ℚ) * (0.1 : ℚ)), "V"⟩ ∧
    |((encodeForWrite ⟨0x0305, 1, 0.1, "V"⟩ (27/2)).toNat : ℚ) * (0.1 : ℚ) - 27/2| ≤ (0.1 : ℚ) :=
  C7_roundtrip "battery_cutoff_voltage" ⟨0x0305, 1, 0.1, "V"⟩ (27/2)
    (by with_unfolding_all rfl) rfl (by norm_num)

/-- C8, confirmed: get_status includes an error/warning entry exactly when
its read succeeded with a decoded value greater than zero — zero-valued (or
failed) error/warning reads are omitted entirely, and a positive decoded
value is always included. Stated for both Anern flags (error_flags_1,
error_flags_2) and both Deye code entries ("errors", "warnings"), each read
at its place in the get_status sequence. -/
theorem C8_status_error_entries (T : Transport) (s : Adapter) :
    (hasKey "error_flags_1" (anernGetStatus T s).1 = true ↔
      ∃ pv, (anernReadParameter T "error_flags_1" (anernStatusMain T s).2).1 = some pv ∧
        pv.value.gtZero = true) ∧
    (hasKey "error_flags_2" (anernGetStatus T s).1 = true ↔
      ∃ pv, (anernReadParameter T "error_flags_2"
          (anernReadParameter T "error_flags_1" (anernStatusMain T s).2).2).1 = some pv ∧
        pv.value.gtZero = true) ∧
    (hasKey "errors" (deyeGetStatus T s).1 = true ↔
      ∃ pv, (deyeReadParameter T "error_codes" (deyeStatusMain T s).2).1 = some pv ∧
        pv.value.gtZero = true) ∧
    (hasKey "warnings" (deyeGetStatus T s).1 = true ↔
      ∃ pv, (deyeReadParameter T "warning_codes"
          (deyeReadParameter T "error_codes" (deyeStatusMain T s).2).2).1 = some pv ∧
        pv.value.gtZero = true) := by
  have hm1 : hasKey "error_flags_1" (anernStatusMain T s).1 = false :=
    hasKey_statusMain_false _ _ _ _ (by decide)
  have hm2 : hasKey "error_flags_2" (anernStatusMain T s).1 = false :=
    hasKey_statusMain_false _ _ _ _ (by decide)
  have hn1 : hasKey "errors" (deyeStatusMain T s).1 = false :=
    hasKey_statusMain_false _ _ _ _ (by decide)
  have hn2 : hasKey "warnings" (deyeStatusMain T s).1 = false :=
    hasKey_statusMain_false _ _ _ _ (by decide)
  refine ⟨?_, ?_, ?_, ?_⟩
  · simp only [anernGetStatus]
    rcases hr2 : (anernReadParameter T "error_flags_2"
        (anernReadParameter T "error_flags_1" (anernStatusMain T s).2).2).1 with _ | pv2 <;>
      rcases hr1 : (anernReadParameter T "error_flags_1" (anernStatusMain T s).2).1 with _ | pv1
    · simp [hm1]
    · by_cases hg1 : pv1.value.gtZero = true <;>
        simp [hg1, hasKey_dictInsert, hm1]
    · by_cases hg2 : pv2.value.gtZero = true <;>
        simp [hg2, hasKey_dictInsert, hm1]
    · by_cases hg1 : pv1.value.gtZero = true <;>
        by_cases hg2 : pv2.value.gtZero = true <;>
          simp [hg1, hg2, hasKey_dictInsert, hm1]
  · simp only [anernGetStatus]
    rcases hr2 : (anernReadParameter T "error_flags_2"
        (anernReadParameter T "error_flags_1" (anernStatusMain T s).2).2).1 with _ | pv2 <;>
      rcases hr1 : (anernReadParameter T "error_flags_1" (anernStatusMain T s).2).1 with _ | pv1
    · simp [hm2]
    · by_cases hg1 : pv1.value.gtZero = true <;>
        simp [hg1, hasKey_dictInsert, hm2]
    · by_cases hg2 : pv2.value.gtZero = true <;>
        simp [hg2, hasKey_dictInsert, hm2]
    · by_cases hg1 : pv1.value.gtZero = true <;>
        by_cases hg2 : pv2.value.gtZero = true <;>
          simp [hg1, hg2, hasKey_dictInsert, hm2]
  · simp only [deyeGetStatus]
    rcases hr2 : (deyeReadParameter T "warning_codes"
        (deyeReadParameter T "error_codes" (deyeStatusMain T s).2).2).1 with _ | pv2 <;>
      rcases hr1 : (deyeReadParameter T "error_codes" (deyeStatusMain T s).2).1 with _ | pv1
    · simp [hn1]
    · by_cases hg1 : pv1.value.gtZero = true <;>
        simp [hg1, hasKey_dictInsert, hn1]
    · by_cases hg2 : pv2.value.gtZero = true <;>
        simp [hg2, hasKey_dictInsert, hn1]
    · by_cases hg1 : pv1.value.gtZero = true <;>
        by_cases hg2 : pv2.value.gtZero = true <;>
          simp [hg1, hg2, hasKey_dictInsert, hn1]
  · simp only [deyeGetStatus]
    rcases hr2 : (deyeReadParameter T "warning_codes"
        (deyeReadParameter T "error_codes" (deyeStatusMain T s).2).2).1 with _ | pv2 <;>
      rcases hr1 : (deyeReadParameter T "error_codes" (deyeStatusMain T s).2).1 with _ | pv1
    · simp [hn2]
    · by_cases hg1 : pv1.value.gtZero = true <;>
        simp [hg1, hasKey_dictInsert, hn2]
    · by_cases hg2 : pv2.value.gtZero = true <;>
        simp [hg2, hasKey_dictInsert, hn2]
    · by_cases hg1 : pv1.value.gtZero = true <;>
        by_cases hg2 : pv2.value.gtZero = true <;>
          simp [hg1, hg2, hasKey_dictInsert, hn2]

/-- C9, confirmed: the invariant "is_connected implies client is not None"
holds after construction and is preserved by connect, disconnect, the
register-level operations and all parameter operations of both adapters;
under the invariant every disconnect call terminates with is_connected
false, and when the client is absent disconnect returns False without ever
reaching the close call (the short-circuit guard). -/
theorem C9_client_invariant :
    (∀ cfg, connInv (initAdapter cfg)) ∧
    (∀ T s, connInv (connect T s).2) ∧
    (∀ s, connInv s → connInv (disconnect s).2) ∧
    (∀ s, connInv s → (disconnect s).2.is_connected = false) ∧
    (∀ s, s.client = none → disconnect s = (false, s)) ∧
    (∀ T a c s, connInv s → connInv (read_register T a c s).2) ∧
    (∀ T a w s, connInv s → connInv (write_register T a w s).2) ∧
    (∀ T n s, connInv s → connInv (anernReadParameter T n s).2) ∧
    (∀ T n v s, connInv s → connInv (anernWriteParameter T n v s).2) ∧
    (∀ T n s, connInv s → connInv (deyeReadParameter T n s).2) ∧
    (∀ T n v s, connInv s → connInv (deyeWriteParameter T n v s).2) ∧
    (∀ T s, connInv s → connInv (anernGetStatus T s).2) ∧
    (∀ T s, connInv s → connInv (deyeGetStatus T s).2) := by
  refine ⟨?_, connect_connInv, ?_, ?_, ?_, read_register_connInv, write_register_connInv,
    anernReadParameter_connInv, anernWriteParameter_connInv,
    deyeReadParameter_connInv, deyeWriteParameter_connInv,
    anernGetStatus_connInv, deyeGetStatus_connInv⟩
  · intro cfg
    intro h
    exact absurd h (by simp [initAdapter])
  · intro s h
    unfold disconnect
    cases hc : s.client with
    | none => exact h
    | some c =>
      cases hb : s.is_connected with
      | false => exact h
      | true =>
        intro hfalse
        simp at hfalse
  · intro s h
    unfold disconnect
    cases hc : s.client with
    | none =>
      cases hb : s.is_connected with
      | false => rfl
      | true =>
        have := h hb
        rw [hc] at this
        simp at this
    | some c =>
      cases hb : s.is_connected with
      | false => exact hb
      | true => rfl
  · intro s hc
    unfold disconnect
    rw [hc]

/-- C9, witness: the invariant transfer applied to the concrete connected
state, together with its disconnect postcondition. -/
theorem C9_client_invariant_witness :
    connInv (disconnect connSt).2 ∧ (disconnect connSt).2.is_connected = false :=
  ⟨C9_client_invariant.2.2.1 connSt (fun _ => rfl),
   C9_client_invariant.2.2.2.1 connSt (fun _ => rfl)⟩

/-- C10, confirmed: write_parameter performs no wordCount check. Every name
present in the Deye register map — including the multi-word parameters
pv_total_energy (size 2) and error_codes (size 4) — is handled by exactly
one write_register transaction of int(value / factor) at the descriptor's
base address, whose boolean result is returned; multi-word names are not
rejected, as the concrete successful writes show. -/
theorem C10_write_ignores_size :
    (∀ (T : Transport) (name : String) (info : RegisterInfo) (v : ℚ) (s : Adapter),
      lookupParam name DeyeRegisterMap = some info →
      deyeWriteParameter T name v s =
        write_register T info.address (truncQ (v / info.factor)) s) ∧
    lookupParam "pv_total_energy" DeyeRegisterMap = some ⟨0x0203, 2, 0.1, "kWh"⟩ ∧
    lookupParam "error_codes" DeyeRegisterMap = some ⟨0x0300, 4, 1, ""⟩ ∧
    (deyeWriteParameter (constReadT []) "pv_total_energy" 5 connSt).1 = true ∧
    (deyeWriteParameter (constReadT []) "error_codes" 1 connSt).1 = true := by
  refine ⟨?_, ?_, ?_, ?_, ?_⟩
  · intro T name info v s hl
    unfold deyeWriteParameter
    rw [hl]
    rfl
  · with_unfolding_all rfl
  · with_unfolding_all rfl
  · with_unfolding_all rfl
  · with_unfolding_all rfl

/-- C10, witness: the delegation equation applied at the multi-word Deye
parameter pv_total_energy. -/
theorem C10_write_ignores_size_witness :
    deyeWriteParameter failT "pv_total_energy" 5 connSt =
      write_register failT 0x0203 (truncQ (5 / (0.1 : ℚ))) connSt :=
  C10_write_ignores_size.1 failT "pv_total_energy" ⟨0x0203, 2, 0.1, "kWh"⟩ 5 connSt
    (by with_unfolding_all rfl)

end Invertor
